import Mathlib

/-!
Verification of the sakilaAPI service (a FastAPI application over the sakila
database, `src/main.py`, plus an auth router `src/app/api/v1/auth.py`).

The relational store is modelled as explicit lists of rows; `NOW()` is a
`now : Nat` timestamp passed to each handler; each handler is a pure function
from the request and the database state to an HTTP outcome and the new state.
An HTTP outcome is `Except HttpError α` (an `HTTPException` raised by the
handler maps to `.error`).  Handlers that dereference a re-fetched row without
checking it for absence (the Python code would raise an uncaught `TypeError`
on a `None` row there) return `Option (...)`, where `none` models that
uncaught crash; every guarded path produces `some`.
-/

namespace SakilaAPI

/-- A row of the `customer` table, which is also the shape of the
`CustomerResponse` model of `src/main.py` (the handlers map `SELECT *` rows
field-by-field onto `CustomerResponse`). Timestamps are `Nat`. -/
structure Customer where
  customer_id : Nat
  store_id : Nat
  first_name : String
  last_name : String
  email : Option String
  address_id : Nat
  active : Bool
  create_date : Nat
  last_update : Nat
deriving Repr, DecidableEq

/-- A row of the `rental` table, also the shape of `RentalResponse`.
`return_date` is nullable. -/
structure Rental where
  rental_id : Nat
  rental_date : Nat
  inventory_id : Nat
  customer_id : Nat
  return_date : Option Nat
  staff_id : Nat
  last_update : Nat
deriving Repr, DecidableEq

/-- A row of the `user` table used by the auth router: the INSERT in
`register` persists exactly (username, email, hashed_password). -/
structure AuthUser where
  username : String
  email : String
  hashed_password : String
deriving Repr, DecidableEq

/-- The database state: the tables touched by the handlers, plus the
auto-increment counters that produce `cursor.lastrowid` for the two INSERTs. -/
structure Db where
  customers : List Customer
  rentals : List Rental
  nextCustomerId : Nat
  nextRentalId : Nat
deriving Repr, DecidableEq

/-- An `HTTPException(status_code, detail, headers)`; handlers raise these. -/
structure HttpError where
  status_code : Nat
  detail : String
  headers : List (String × String) := []
deriving Repr, DecidableEq

/-- Request body `CustomerCreate` of `src/main.py`: `email` is optional with
default `None`, `active` defaults to `True`. -/
structure CustomerCreate where
  store_id : Nat
  first_name : String
  last_name : String
  email : Option String := none
  address_id : Nat
  active : Bool := true
deriving Repr, DecidableEq

/-- Request body `CustomerUpdate` of `src/main.py`: every field optional,
defaulting to `None`. -/
structure CustomerUpdate where
  store_id : Option Nat := none
  first_name : Option String := none
  last_name : Option String := none
  email : Option String := none
  address_id : Option Nat := none
  active : Option Bool := none
deriving Repr, DecidableEq

/-- Request body `RentalCreate` of `src/main.py`. -/
structure RentalCreate where
  rental_date : Nat
  inventory_id : Nat
  customer_id : Nat
  staff_id : Nat
deriving Repr, DecidableEq

/-- `update_customer` builds `updates`/`values` from the non-null request
fields; the update list is empty exactly when every field is `None`. -/
def CustomerUpdate.isEmpty (u : CustomerUpdate) : Bool :=
  u.store_id.isNone && u.first_name.isNone && u.last_name.isNone &&
    u.email.isNone && u.address_id.isNone && u.active.isNone

/-- Effect on one `customer` row of the dynamic `UPDATE customer SET ...`
statement built by `update_customer` (lines 250-279 of `src/main.py`): each
field present (non-null) in the request is assigned, absent fields are left
alone, and `last_update = NOW()` is always appended to the SET list. -/
def applyUpdate (u : CustomerUpdate) (now : Nat) (c : Customer) : Customer :=
  { c with
    store_id := u.store_id.getD c.store_id
    first_name := u.first_name.getD c.first_name
    last_name := u.last_name.getD c.last_name
    email := match u.email with
      | some e => some e
      | none => c.email
    address_id := u.address_id.getD c.address_id
    active := u.active.getD c.active
    last_update := now }

/-- `SELECT ... FROM customer WHERE customer_id = %s` + `fetchone()`. -/
def Db.findCustomer (db : Db) (cid : Nat) : Option Customer :=
  db.customers.find? (fun c => c.customer_id == cid)

/-- `SELECT ... FROM rental WHERE rental_id = %s` + `fetchone()`. -/
def Db.findRental (db : Db) (rid : Nat) : Option Rental :=
  db.rentals.find? (fun r => r.rental_id == rid)

/-! ## Pagination parameters

Each list endpoint declares `skip: int = Query(0, ge=0)` and
`limit: int = Query(100, ge=1, le=500)`; FastAPI rejects values outside the
bounds before the handler runs. -/

/-- The `Query(...)` declaration of a pair of pagination parameters. -/
structure PageParams where
  skip_default : Nat
  skip_min : Nat
  limit_default : Nat
  limit_min : Nat
  limit_max : Nat
deriving Repr, DecidableEq

/-- Pagination declared on `GET /api/v1/customers` (line 172). -/
def customersPageParams : PageParams :=
  { skip_default := 0, skip_min := 0, limit_default := 100,
    limit_min := 1, limit_max := 500 }

/-- Pagination declared on `GET /api/v1/rentals` (line 500). -/
def rentalsPageParams : PageParams :=
  { skip_default := 0, skip_min := 0, limit_default := 100,
    limit_min := 1, limit_max := 500 }

/-- Pagination declared on `GET /api/v1/customers/.../rentals`
(lines 456-457). -/
def customerRentalsPageParams : PageParams :=
  { skip_default := 0, skip_min := 0, limit_default := 100,
    limit_min := 1, limit_max := 500 }

/-! ## `ORDER BY`: insertion sort over an arbitrary Boolean comparison -/

/-- Insert `a` in front of the first element `b` with `le a b`. -/
def insertSorted (le : α → α → Bool) (a : α) : List α → List α
  | [] => [a]
  | b :: t => if le a b then a :: b :: t else b :: insertSorted le a t

/-- Insertion sort; models the `ORDER BY` clause of the list queries. -/
def sortBy (le : α → α → Bool) : List α → List α
  | [] => []
  | a :: t => insertSorted le a (sortBy le t)

/-- `ORDER BY customer_id` (ascending). -/
def customerAsc (a b : Customer) : Bool :=
  a.customer_id ≤ b.customer_id

/-- `ORDER BY rental_date DESC`. -/
def rentalDesc (a b : Rental) : Bool :=
  b.rental_date ≤ a.rental_date

/-! ## Customer handlers (`src/main.py`) -/

/-- Lines 144-157 of `src/main.py`: what `create_customer` does with the row
re-fetched after the INSERT.  A missing row is checked and turned into a
defensive 500. -/
def create_customer_after_insert (row : Option Customer) :
    Except HttpError Customer :=
  match row with
  | none => .error { status_code := 500,
                     detail := "Failed to retrieve created customer" }
  | some r => .ok r

/-- The `customer` row INSERTed by `create_customer` (lines 126-137 of
`src/main.py`): the request fields, a fresh auto-increment id,
`create_date = NOW()` and the store-stamped `last_update`. -/
def newCustomerRow (db : Db) (now : Nat) (cus : CustomerCreate) : Customer :=
  { customer_id := db.nextCustomerId, store_id := cus.store_id,
    first_name := cus.first_name, last_name := cus.last_name,
    email := cus.email, address_id := cus.address_id, active := cus.active,
    create_date := now, last_update := now }

/-- `POST /api/v1/customers` (`create_customer`, lines 122-161): INSERT the
row, commit, re-fetch by `cursor.lastrowid`, and map the row to the
response. -/
def create_customer (db : Db) (now : Nat) (cus : CustomerCreate) :
    Except HttpError Customer × Db :=
  let db2 : Db :=
    { db with customers := db.customers ++ [newCustomerRow db now cus],
              nextCustomerId := db.nextCustomerId + 1 }
  (create_customer_after_insert (db2.findCustomer db.nextCustomerId), db2)

/-- `GET /api/v1/customers` (`get_customers`, lines 172-198):
`SELECT * FROM customer ORDER BY customer_id LIMIT %s OFFSET %s`. -/
def get_customers (db : Db) (skip limit : Nat) : List Customer :=
  ((sortBy customerAsc db.customers).drop skip).take limit

/-- `GET /api/v1/customers/id` (`get_customer`, lines 209-231). -/
def get_customer (db : Db) (cid : Nat) : Except HttpError Customer :=
  match db.findCustomer cid with
  | none => .error { status_code := 404, detail := "Customer not found" }
  | some row => .ok row

/-- `PUT /api/v1/customers/id` (`update_customer`, lines 242-297): 404 when
the id is absent; 400 when no field of the request is non-null; otherwise run
the dynamic UPDATE, commit, re-fetch and map the row.  The re-fetched row is
dereferenced without a null check (lines 282-295), so a missing row would be
an uncaught crash, modelled by the `none` result. -/
def update_customer (db : Db) (now cid : Nat) (u : CustomerUpdate) :
    Option (Except HttpError Customer × Db) :=
  match db.findCustomer cid with
  | none => some (.error { status_code := 404, detail := "Customer not found" }, db)
  | some _ =>
    if u.isEmpty then
      some (.error { status_code := 400, detail := "No data to update" }, db)
    else
      let customers2 := db.customers.map fun c =>
        if c.customer_id == cid then applyUpdate u now c else c
      let db2 : Db := { db with customers := customers2 }
      match db2.findCustomer cid with
      | none => none
      | some row => some (.ok row, db2)

/-- `DELETE /api/v1/customers/id` (`delete_customer`, lines 307-325): 404
when absent; the DELETE raises `IntegrityError` exactly when a rental still
references the customer (the `rental.customer_id` foreign key), which the
handler maps to 409 and the row stays; otherwise the row is deleted. -/
def delete_customer (db : Db) (cid : Nat) : Except HttpError Unit × Db :=
  match db.findCustomer cid with
  | none => (.error { status_code := 404, detail := "Customer not found" }, db)
  | some _ =>
    if db.rentals.any (fun r => r.customer_id == cid) then
      (.error { status_code := 409,
                detail := "Cannot delete customer with existing rentals" }, db)
    else
      (.ok (), { db with
        customers := db.customers.filter fun c => !(c.customer_id == cid) })

/-- The route decorator of `delete_customer` declares
`status_code=status.HTTP_204_NO_CONTENT`; an `HTTPException` keeps its own
status code. -/
def delete_response_status : Except HttpError Unit → Nat
  | .ok _ => 204
  | .error e => e.status_code

/-! ## Rental handlers (`src/main.py`) -/

/-- Lines 354-365 of `src/main.py`: what `create_rental` does with the row
re-fetched after the INSERT.  Unlike `create_customer`, the row is used
without a null check: `RentalResponse(rental_id=row[0], ...)` on a `None`
row is an uncaught crash, modelled by `none`. -/
def create_rental_after_insert (row : Option Rental) :
    Option (Except HttpError Rental) :=
  match row with
  | none => none
  | some r => some (.ok r)

/-- The `rental` row INSERTed by `create_rental` (lines 341-350 of
`src/main.py`): the client-supplied `rental_date`, a fresh auto-increment
id, null `return_date` and the store-stamped `last_update`. -/
def newRentalRow (db : Db) (now : Nat) (req : RentalCreate) : Rental :=
  { rental_id := db.nextRentalId, rental_date := req.rental_date,
    inventory_id := req.inventory_id, customer_id := req.customer_id,
    return_date := none, staff_id := req.staff_id, last_update := now }

/-- `POST /api/v1/rentals` (`create_rental`, lines 337-369): INSERT the row,
commit, re-fetch by `cursor.lastrowid` and map the row. -/
def create_rental (db : Db) (now : Nat) (req : RentalCreate) :
    Option (Except HttpError Rental) × Db :=
  let db2 : Db :=
    { db with rentals := db.rentals ++ [newRentalRow db now req],
              nextRentalId := db.nextRentalId + 1 }
  (create_rental_after_insert (db2.findRental db.nextRentalId), db2)

/-- `PUT /api/v1/rentals/id/return` (`return_rental`, lines 411-443): 404
when the id is absent; 400 "Rental already returned" when `return_date` is
already non-null; otherwise
`UPDATE rental SET return_date = NOW(), last_update = NOW()`, commit,
re-fetch and map the row (again dereferenced without a null check). -/
def return_rental (db : Db) (now rid : Nat) :
    Option (Except HttpError Rental × Db) :=
  match db.findRental rid with
  | none => some (.error { status_code := 404, detail := "Rental not found" }, db)
  | some r =>
    match r.return_date with
    | some _ =>
      some (.error { status_code := 400, detail := "Rental already returned" }, db)
    | none =>
      let rentals2 := db.rentals.map fun s =>
        if s.rental_id == rid then
          { s with return_date := some now, last_update := now }
        else s
      let db2 : Db := { db with rentals := rentals2 }
      match db2.findRental rid with
      | none => none
      | some row => some (.ok row, db2)

/-- `GET /api/v1/customers/id/rentals` (`get_customer_rentals`, lines
454-490): first check the customer exists (404 otherwise), then
`SELECT * FROM rental WHERE customer_id = %s ORDER BY rental_date DESC
LIMIT %s OFFSET %s`. -/
def get_customer_rentals (db : Db) (cid skip limit : Nat) :
    Except HttpError (List Rental) :=
  match db.findCustomer cid with
  | none => .error { status_code := 404, detail := "Customer not found" }
  | some _ =>
    .ok (((sortBy rentalDesc
        (db.rentals.filter fun r => r.customer_id == cid)).drop skip).take limit)

/-- `GET /api/v1/rentals` (`get_rentals`, lines 500-524):
`SELECT * FROM rental ORDER BY rental_date DESC LIMIT %s OFFSET %s`. -/
def get_rentals (db : Db) (skip limit : Nat) : List Rental :=
  ((sortBy rentalDesc db.rentals).drop skip).take limit

/-! ## Auth module (`src/app/api/v1/auth.py`)

`auth.py` imports `authenticate_user`, `create_access_token`,
`get_password_hash` and `ACCESS_TOKEN_EXPIRE_MINUTES` from
`app.core.security`, and the connection helper from `app.db.database`;
those modules are not part of the available source, so they are modelled
from the spec (section 4.4) below.  The password hash function and the
configured expiry window are parameters of the model. -/

/-- Claims carried by the issued bearer token.  Modelled from the spec:
`create_access_token` of `app.core.security` is not under `src/`; the spec
says the token is a signed credential "embedding the subject (username) and
an expiry", its signature delegated to a standard signed-token scheme, so a
token is represented here by its decoded claims. -/
structure TokenClaims where
  sub : String
  exp : Nat
deriving Repr, DecidableEq

/-- The response body of `POST /api/v1/auth/token`
(an `access_token` plus its `token_type`). -/
structure Token where
  access_token : TokenClaims
  token_type : String
deriving Repr, DecidableEq

/-- Request body `UserCreate` of `src/app/schemas/user.py`. -/
structure UserCreate where
  username : String
  email : String
  password : String
deriving Repr, DecidableEq

/-- Modelled from the spec: `create_access_token` of `app.core.security` is
not under `src/`; per section 4.4 it issues a token whose claims are the
given subject and an expiry `expires_delta` from issuance (`now`, in
minutes). -/
def create_access_token (now : Nat) (sub : String) (expires_delta : Nat) :
    TokenClaims :=
  { sub := sub, exp := now + expires_delta }

/-- Modelled from the spec: `authenticate_user` of `app.core.security` is
not under `src/`; per section 4.4 it verifies the supplied credentials
against the stored hash and fails on a missing user or a mismatch.  `hash`
is the (salted, one-way) password hash function. -/
def authenticate_user (hash : String → String) (users : List AuthUser)
    (username password : String) : Option AuthUser :=
  match users.find? (fun u => u.username == username) with
  | none => none
  | some u => if hash password == u.hashed_password then some u else none

/-- Modelled from the spec: uniqueness of `username` and `email` in the
`user` table is enforced by the store (section 3); the INSERT issued by
`register` raises `IntegrityError` exactly when a stored user already has
the same username or the same email. -/
def user_insert_conflict (users : List AuthUser)
    (username email : String) : Bool :=
  users.any fun u => u.username == username || u.email == email

/-- `POST /api/v1/auth/register` (`register`, lines 17-39 of `auth.py`):
hash the supplied password (`get_password_hash`, modelled by the `hash`
parameter), INSERT (username, email, hashed_password); an `IntegrityError`
(duplicate username/email) becomes a 400 and the table is unchanged. -/
def register (hash : String → String) (users : List AuthUser)
    (u : UserCreate) : Except HttpError String × List AuthUser :=
  let hashed_password := hash u.password
  if user_insert_conflict users u.username u.email then
    (.error { status_code := 400,
              detail := "El usuario o el e-mail ya existen en la base de datos" },
     users)
  else
    (.ok "Usuario creado correctamente",
     users ++ [{ username := u.username, email := u.email,
                 hashed_password := hashed_password }])

/-- `POST /api/v1/auth/token` (`login`, lines 41-64 of `auth.py`): when
`authenticate_user` fails, 401 with a `WWW-Authenticate: Bearer` challenge
header; otherwise issue a token for the supplied username expiring
`expireMinutes` (the configured `ACCESS_TOKEN_EXPIRE_MINUTES`) after `now`. -/
def login (hash : String → String) (expireMinutes : Nat)
    (users : List AuthUser) (now : Nat) (username password : String) :
    Except HttpError Token :=
  match authenticate_user hash users username password with
  | none => .error { status_code := 401, detail := "Credenciales inválidas",
                     headers := [("WWW-Authenticate", "Bearer")] }
  | some _ =>
    .ok { access_token := create_access_token now username expireMinutes,
          token_type := "bearer" }

/-! ## Concrete fixtures used for instances and witnesses -/

/-- Fixture customer with id 1. -/
def cW1 : Customer :=
  { customer_id := 1, store_id := 1, first_name := "Ana", last_name := "Diaz",
    email := some "ana@example.com", address_id := 3, active := true,
    create_date := 10, last_update := 10 }

/-- Fixture customer with id 2. -/
def cW2 : Customer :=
  { customer_id := 2, store_id := 1, first_name := "Bruno", last_name := "Gil",
    email := none, address_id := 4, active := true,
    create_date := 11, last_update := 11 }

/-- Fixture customer with id 3. -/
def cW3 : Customer :=
  { customer_id := 3, store_id := 2, first_name := "Caro", last_name := "Ruiz",
    email := some "caro@example.com", address_id := 5, active := false,
    create_date := 12, last_update := 12 }

/-- Fixture customer with id 4. -/
def cW4 : Customer :=
  { customer_id := 4, store_id := 2, first_name := "Dana", last_name := "Soto",
    email := none, address_id := 6, active := true,
    create_date := 13, last_update := 13 }

/-- Fixture customer with id 5. -/
def cW5 : Customer :=
  { customer_id := 5, store_id := 1, first_name := "Elio", last_name := "Vega",
    email := some "elio@example.com", address_id := 7, active := true,
    create_date := 14, last_update := 14 }

/-- Fixture rental 1: not yet returned, by customer 2. -/
def rWa : Rental :=
  { rental_id := 1, rental_date := 50, inventory_id := 7, customer_id := 2,
    return_date := none, staff_id := 1, last_update := 50 }

/-- Fixture rental 2: already returned, by customer 2. -/
def rWb : Rental :=
  { rental_id := 2, rental_date := 60, inventory_id := 8, customer_id := 2,
    return_date := some 70, staff_id := 1, last_update := 70 }

/-- Fixture rental 3: not yet returned, by customer 4. -/
def rWc : Rental :=
  { rental_id := 3, rental_date := 55, inventory_id := 9, customer_id := 4,
    return_date := none, staff_id := 2, last_update := 55 }

/-- Fixture database: five customers (stored out of id order) and three
rentals. -/
def dbW : Db :=
  { customers := [cW3, cW1, cW5, cW2, cW4], rentals := [rWa, rWb, rWc],
    nextCustomerId := 6, nextRentalId := 4 }

/-- Fixture password hash function for the auth witnesses: appends a marker,
so it never maps a password to itself. -/
def hashW : String → String := fun s => s ++ "#hashed"

/-- Fixture user table for the auth witnesses. -/
def usersW : List AuthUser :=
  [{ username := "alice", email := "alice@example.com",
     hashed_password := hashW "wonderland1" }]

/-! ## Helper lemmas -/

/-- `find?` through an update-where map: mapping
`fun x => if q x then g x else x` over a list sends the first `q`-match `c`
to `g c`, provided `g` preserves `q`. -/
theorem find?_map_upd {α : Type} (q : α → Bool) (g : α → α)
    (hg : ∀ x, q x = true → q (g x) = true)
    (l : List α) (c : α) (h : l.find? q = some c) :
    (l.map fun x => if q x then g x else x).find? q = some (g c) := by
  induction l with
  | nil => simp at h
  | cons a t ih =>
    by_cases ha : q a = true
    · rw [List.find?_cons_of_pos _ ha] at h
      cases h
      simp only [List.map_cons, if_pos ha]
      rw [List.find?_cons_of_pos _ (hg _ ha)]
    · have ha2 : ¬ (q a = true) := ha
      rw [List.find?_cons_of_neg _ ha2] at h
      simp only [List.map_cons, if_neg ha2]
      rw [List.find?_cons_of_neg _ ha2]
      exact ih h

/-- `find?` skips a prefix on which the predicate is everywhere false. -/
theorem find?_append_notfound {α : Type} (q : α → Bool) (l l2 : List α)
    (h : ∀ x ∈ l, q x = false) :
    (l ++ l2).find? q = l2.find? q := by
  induction l with
  | nil => rfl
  | cons a t ih =>
    rw [List.cons_append, List.find?_cons_of_neg]
    · exact ih fun x hx => h x (List.mem_cons_of_mem a hx)
    · simp [h a (List.mem_cons_self a t)]

/-- Inserting into a list is a permutation of consing. -/
theorem insertSorted_perm (le : α → α → Bool) (a : α) (l : List α) :
    (insertSorted le a l).Perm (a :: l) := by
  induction l with
  | nil => exact List.Perm.refl _
  | cons b t ih =>
    by_cases h : le a b = true
    · simp [insertSorted, h]
    · simp only [insertSorted, if_neg h]
      exact (List.Perm.cons b ih).trans (List.Perm.swap a b t)

/-- `sortBy` permutes its input. -/
theorem sortBy_perm (le : α → α → Bool) (l : List α) :
    (sortBy le l).Perm l := by
  induction l with
  | nil => exact List.Perm.refl _
  | cons a t ih =>
    exact (insertSorted_perm le a (sortBy le t)).trans (List.Perm.cons a ih)

/-- Insertion preserves sortedness, for a total transitive comparison. -/
theorem insertSorted_pairwise (le : α → α → Bool)
    (htot : ∀ x y, le x y = false → le y x = true)
    (htrans : ∀ x y z, le x y = true → le y z = true → le x z = true)
    (a : α) (l : List α) (hl : l.Pairwise fun x y => le x y = true) :
    (insertSorted le a l).Pairwise fun x y => le x y = true := by
  induction l with
  | nil => simp [insertSorted]
  | cons b t ih =>
    rcases List.pairwise_cons.1 hl with ⟨hb, ht⟩
    by_cases hab : le a b = true
    · simp only [insertSorted, if_pos hab]
      refine List.pairwise_cons.2 ⟨?_, hl⟩
      intro x hx
      rcases List.mem_cons.1 hx with rfl | hx
      · exact hab
      · exact htrans a b x hab (hb x hx)
    · have hab2 : le a b = false := by
        cases h : le a b
        · rfl
        · exact absurd h hab
      simp only [insertSorted, if_neg hab]
      refine List.pairwise_cons.2 ⟨?_, ih ht⟩
      intro x hx
      have hx2 : x ∈ a :: t := (insertSorted_perm le a t).mem_iff.1 hx
      rcases List.mem_cons.1 hx2 with rfl | hx2
      · exact htot x b hab2
      · exact hb x hx2

/-- The output of `sortBy` is sorted, for a total transitive comparison. -/
theorem sortBy_pairwise (le : α → α → Bool)
    (htot : ∀ x y, le x y = false → le y x = true)
    (htrans : ∀ x y z, le x y = true → le y z = true → le x z = true)
    (l : List α) :
    (sortBy le l).Pairwise fun x y => le x y = true := by
  induction l with
  | nil => simp [sortBy]
  | cons a t ih => exact insertSorted_pairwise le htot htrans a _ ih

/-- `customerAsc` is total. -/
theorem customerAsc_total (x y : Customer) :
    customerAsc x y = false → customerAsc y x = true := by
  simp only [customerAsc, decide_eq_false_iff_not, decide_eq_true_eq]
  omega

/-- `customerAsc` is transitive. -/
theorem customerAsc_trans (x y z : Customer) :
    customerAsc x y = true → customerAsc y z = true →
    customerAsc x z = true := by
  simp only [customerAsc, decide_eq_true_eq]
  omega

/-- `rentalDesc` is total. -/
theorem rentalDesc_total (x y : Rental) :
    rentalDesc x y = false → rentalDesc y x = true := by
  simp only [rentalDesc, decide_eq_false_iff_not, decide_eq_true_eq]
  omega

/-- `rentalDesc` is transitive. -/
theorem rentalDesc_trans (x y z : Rental) :
    rentalDesc x y = true → rentalDesc y z = true → rentalDesc x z = true := by
  simp only [rentalDesc, decide_eq_true_eq]
  omega

/-! ## Claims -/

/-- C1: the rental return operation is a one-way state transition.  For every
rental id: 404 when no such rental exists; when it exists with null
`return_date`, the call succeeds, sets `return_date` to a non-null timestamp
and stamps `last_update` (other rentals untouched); when `return_date` is
already non-null, 400 "Rental already returned" and the database is
unchanged.  Hence `return_date` goes from null to non-null exactly once
through this endpoint and never back. -/
theorem return_rental_one_way (db : Db) (now rid : Nat) :
    (db.findRental rid = none →
      return_rental db now rid =
        some (.error { status_code := 404, detail := "Rental not found" }, db)) ∧
    (∀ r t, db.findRental rid = some r → r.return_date = some t →
      return_rental db now rid =
        some (.error { status_code := 400, detail := "Rental already returned" },
              db)) ∧
    (∀ r, db.findRental rid = some r → r.return_date = none →
      ∃ db2, return_rental db now rid =
          some (.ok { r with return_date := some now, last_update := now }, db2) ∧
        db2.findRental rid =
          some { r with return_date := some now, last_update := now } ∧
        db2.customers = db.customers ∧
        (∀ (i : Nat) (s : Rental), db.rentals[i]? = some s → s.rental_id ≠ rid →
          db2.rentals[i]? = some s)) := by
  refine ⟨?_, ?_, ?_⟩
  · intro h
    simp [return_rental, h]
  · intro r t hr ht
    simp [return_rental, hr, ht]
  · intro r hr hnone
    have hr2 : db.rentals.find? (fun s => s.rental_id == rid) = some r := hr
    have hfind :
        (db.rentals.map fun s =>
            if s.rental_id == rid then
              { s with return_date := some now, last_update := now }
            else s).find? (fun s => s.rental_id == rid) =
          some { r with return_date := some now, last_update := now } := by
      exact find?_map_upd (fun s => s.rental_id == rid)
        (fun s => { s with return_date := some now, last_update := now })
        (fun x hx => hx) db.rentals r hr2
    refine ⟨{ db with rentals := db.rentals.map fun s =>
        if s.rental_id == rid then
          { s with return_date := some now, last_update := now }
        else s }, ?_, ?_, rfl, ?_⟩
    · simp only [return_rental, Db.findRental, hr2, hnone, hfind]
    · exact hfind
    · intro i s hs hne
      have hfalse : (s.rental_id == rid) = false := by
        simp [hne]
      simp [List.getElem?_map, hs, hfalse, hne]

/-- Witness for C1: in the fixture database, returning rental 1 (not yet
returned) at time 90 succeeds, stamps both dates, and leaves the other
rentals untouched. -/
theorem return_rental_one_way_witness :
    ∃ db2, return_rental dbW 90 1 =
        some (.ok { rWa with return_date := some 90, last_update := 90 }, db2) ∧
      db2.findRental 1 =
        some { rWa with return_date := some 90, last_update := 90 } ∧
      db2.customers = dbW.customers ∧
      (∀ (i : Nat) (s : Rental), dbW.rentals[i]? = some s → s.rental_id ≠ 1 →
        db2.rentals[i]? = some s) :=
  (return_rental_one_way dbW 90 1).2.2 rWa (by decide) (by decide)

/-- C2: for an existing customer, a partial update modifies exactly the
fields that are non-null in the request plus `last_update`, and leaves every
other stored field of that customer (`customer_id`, `create_date`, and every
field whose request value is null) and every other customer (and the rental
table) unchanged. -/
theorem update_customer_frame (db : Db) (now cid : Nat) (u : CustomerUpdate)
    (c : Customer) (hc : db.findCustomer cid = some c)
    (hne : u.isEmpty = false) :
    ∃ db2, update_customer db now cid u =
        some (.ok (applyUpdate u now c), db2) ∧
      db2.rentals = db.rentals ∧
      db2.customers.length = db.customers.length ∧
      (∀ (i : Nat) (x : Customer), db.customers[i]? = some x →
        x.customer_id ≠ cid → db2.customers[i]? = some x) ∧
      (∀ (i : Nat) (x : Customer), db.customers[i]? = some x →
        x.customer_id = cid → db2.customers[i]? = some (applyUpdate u now x)) ∧
      (∀ v, u.store_id = some v → (applyUpdate u now c).store_id = v) ∧
      (u.store_id = none → (applyUpdate u now c).store_id = c.store_id) ∧
      (∀ v, u.first_name = some v → (applyUpdate u now c).first_name = v) ∧
      (u.first_name = none →
        (applyUpdate u now c).first_name = c.first_name) ∧
      (∀ v, u.last_name = some v → (applyUpdate u now c).last_name = v) ∧
      (u.last_name = none → (applyUpdate u now c).last_name = c.last_name) ∧
      (∀ v, u.email = some v → (applyUpdate u now c).email = some v) ∧
      (u.email = none → (applyUpdate u now c).email = c.email) ∧
      (∀ v, u.address_id = some v → (applyUpdate u now c).address_id = v) ∧
      (u.address_id = none →
        (applyUpdate u now c).address_id = c.address_id) ∧
      (∀ v, u.active = some v → (applyUpdate u now c).active = v) ∧
      (u.active = none → (applyUpdate u now c).active = c.active) ∧
      (applyUpdate u now c).customer_id = c.customer_id ∧
      (applyUpdate u now c).create_date = c.create_date ∧
      (applyUpdate u now c).last_update = now := by
  have hc2 : db.customers.find? (fun x => x.customer_id == cid) = some c := hc
  have hfind :
      (db.customers.map fun x =>
          if x.customer_id == cid then applyUpdate u now x else x).find?
        (fun x => x.customer_id == cid) = some (applyUpdate u now c) :=
    find?_map_upd (fun x => x.customer_id == cid) (applyUpdate u now)
      (fun x hx => hx) db.customers c hc2
  refine ⟨{ db with customers := db.customers.map fun x =>
      if x.customer_id == cid then applyUpdate u now x else x },
    ?_, rfl, by simp, ?_, ?_,
    fun v hv => by simp [applyUpdate, hv],
    fun h0 => by simp [applyUpdate, h0],
    fun v hv => by simp [applyUpdate, hv],
    fun h0 => by simp [applyUpdate, h0],
    fun v hv => by simp [applyUpdate, hv],
    fun h0 => by simp [applyUpdate, h0],
    fun v hv => by simp [applyUpdate, hv],
    fun h0 => by simp [applyUpdate, h0],
    fun v hv => by simp [applyUpdate, hv],
    fun h0 => by simp [applyUpdate, h0],
    fun v hv => by simp [applyUpdate, hv],
    fun h0 => by simp [applyUpdate, h0],
    rfl, rfl, rfl⟩
  · simp only [update_customer, Db.findCustomer, hc2, hne, hfind,
      Bool.false_eq_true, if_false]
  · intro i x hx hneq
    have hf : (x.customer_id == cid) = false := by simp [hneq]
    simp [List.getElem?_map, hx, hf, hneq]
  · intro i x hx heq
    simp [List.getElem?_map, hx, heq]

/-- Witness for C2: in the fixture database, updating customer 3 with only
`active := false` succeeds and changes only `active` and `last_update` of
customer 3. -/
theorem update_customer_frame_witness :
    ∃ db2, update_customer dbW 99 3 { active := some false } =
        some (.ok (applyUpdate { active := some false } 99 cW3), db2) ∧
      db2.rentals = dbW.rentals ∧
      db2.customers.length = dbW.customers.length ∧
      (∀ (i : Nat) (x : Customer), dbW.customers[i]? = some x →
        x.customer_id ≠ 3 → db2.customers[i]? = some x) ∧
      (∀ (i : Nat) (x : Customer), dbW.customers[i]? = some x →
        x.customer_id = 3 →
        db2.customers[i]? = some (applyUpdate { active := some false } 99 x)) ∧
      (∀ v, (none : Option Nat) = some v →
        (applyUpdate { active := some false } 99 cW3).store_id = v) ∧
      ((none : Option Nat) = none →
        (applyUpdate { active := some false } 99 cW3).store_id =
          cW3.store_id) ∧
      (∀ v, (none : Option String) = some v →
        (applyUpdate { active := some false } 99 cW3).first_name = v) ∧
      ((none : Option String) = none →
        (applyUpdate { active := some false } 99 cW3).first_name =
          cW3.first_name) ∧
      (∀ v, (none : Option String) = some v →
        (applyUpdate { active := some false } 99 cW3).last_name = v) ∧
      ((none : Option String) = none →
        (applyUpdate { active := some false } 99 cW3).last_name =
          cW3.last_name) ∧
      (∀ v, (none : Option String) = some v →
        (applyUpdate { active := some false } 99 cW3).email = some v) ∧
      ((none : Option String) = none →
        (applyUpdate { active := some false } 99 cW3).email = cW3.email) ∧
      (∀ v, (none : Option Nat) = some v →
        (applyUpdate { active := some false } 99 cW3).address_id = v) ∧
      ((none : Option Nat) = none →
        (applyUpdate { active := some false } 99 cW3).address_id =
          cW3.address_id) ∧
      (∀ v, (some false : Option Bool) = some v →
        (applyUpdate { active := some false } 99 cW3).active = v) ∧
      ((some false : Option Bool) = none →
        (applyUpdate { active := some false } 99 cW3).active = cW3.active) ∧
      (applyUpdate { active := some false } 99 cW3).customer_id =
        cW3.customer_id ∧
      (applyUpdate { active := some false } 99 cW3).create_date =
        cW3.create_date ∧
      (applyUpdate { active := some false } 99 cW3).last_update = 99 :=
  update_customer_frame dbW 99 3 { active := some false } cW3
    (by decide) (by decide)

/-- C3: for an existing customer, an update request in which every optional
field is null (an empty body) yields 400 "No data to update" and returns the
database completely unchanged: no UPDATE is issued, so not even
`last_update` is stamped. -/
theorem update_customer_empty_body (db : Db) (now cid : Nat)
    (u : CustomerUpdate) (c : Customer) (hc : db.findCustomer cid = some c)
    (h1 : u.store_id = none) (h2 : u.first_name = none)
    (h3 : u.last_name = none) (h4 : u.email = none)
    (h5 : u.address_id = none) (h6 : u.active = none) :
    update_customer db now cid u =
      some (.error { status_code := 400, detail := "No data to update" }, db) := by
  have hc2 : db.customers.find? (fun x => x.customer_id == cid) = some c := hc
  have hempty : u.isEmpty = true := by
    simp [CustomerUpdate.isEmpty, h1, h2, h3, h4, h5, h6]
  simp only [update_customer, Db.findCustomer, hc2, hempty, if_true]

/-- Witness for C3: updating fixture customer 4 with the all-null request
yields 400 and the unchanged database. -/
theorem update_customer_empty_body_witness :
    update_customer dbW 99 4 {} =
      some (.error { status_code := 400, detail := "No data to update" },
            dbW) :=
  update_customer_empty_body dbW 99 4 {} cW4 (by decide) rfl rfl rfl rfl rfl rfl

/-- C4: deleting a customer yields 404 when the id does not exist; when at
least one rental references the customer, the foreign-key violation is
mapped to 409 conflict (an `HttpError`, not a raw store error) and the
customer remains in the store; otherwise the call succeeds with 204 and the
customer is removed (rentals and the other customers untouched). -/
theorem delete_customer_cases (db : Db) (cid : Nat) :
    (db.findCustomer cid = none →
      delete_customer db cid =
        (.error { status_code := 404, detail := "Customer not found" }, db)) ∧
    (∀ c, db.findCustomer cid = some c →
      (∃ r ∈ db.rentals, r.customer_id = cid) →
      delete_customer db cid =
        (.error { status_code := 409,
                  detail := "Cannot delete customer with existing rentals" },
         db) ∧
      (delete_customer db cid).2.findCustomer cid = some c) ∧
    (∀ c, db.findCustomer cid = some c →
      (∀ r ∈ db.rentals, r.customer_id ≠ cid) →
      delete_response_status (delete_customer db cid).1 = 204 ∧
      (∀ x ∈ (delete_customer db cid).2.customers, x.customer_id ≠ cid) ∧
      (∀ x ∈ db.customers, x.customer_id ≠ cid →
        x ∈ (delete_customer db cid).2.customers) ∧
      (delete_customer db cid).2.rentals = db.rentals) := by
  refine ⟨?_, ?_, ?_⟩
  · intro h
    simp [delete_customer, h]
  · intro c hc hex
    have hc2 : db.customers.find? (fun x => x.customer_id == cid) = some c := hc
    have hany : db.rentals.any (fun r => r.customer_id == cid) = true := by
      obtain ⟨r, hr, he⟩ := hex
      simp only [List.any_eq_true]
      exact ⟨r, hr, by simp [he]⟩
    constructor
    · simp [delete_customer, hc, hany]
    · simp [delete_customer, hc, Db.findCustomer, hc2, hany]
  · intro c hc hall
    have hc2 : db.customers.find? (fun x => x.customer_id == cid) = some c := hc
    have hany : db.rentals.any (fun r => r.customer_id == cid) = false := by
      simp only [List.any_eq_false]
      intro r hr
      simp [hall r hr]
    have hres : delete_customer db cid =
        (.ok (), { db with
          customers := db.customers.filter fun x => !(x.customer_id == cid) }) := by
      simp [delete_customer, hc, hany]
    refine ⟨by simp [hres, delete_response_status], ?_, ?_, by simp [hres]⟩
    · intro x hx
      rw [hres] at hx
      have := (List.mem_filter.1 hx).2
      simpa using this
    · intro x hx hne
      rw [hres]
      exact List.mem_filter.2 ⟨hx, by simpa using hne⟩

/-- Witness for C4: in the fixture database, deleting customer 2 (who has
rentals) yields 409 and the customer remains; deleting customer 1 (who has
none) yields 204 and removes the customer. -/
theorem delete_customer_cases_witness :
    (delete_customer dbW 2 =
      (.error { status_code := 409,
                detail := "Cannot delete customer with existing rentals" },
       dbW) ∧
     (delete_customer dbW 2).2.findCustomer 2 = some cW2) ∧
    (delete_response_status (delete_customer dbW 1).1 = 204 ∧
     (∀ x ∈ (delete_customer dbW 1).2.customers, x.customer_id ≠ 1) ∧
     (∀ x ∈ dbW.customers, x.customer_id ≠ 1 →
       x ∈ (delete_customer dbW 1).2.customers) ∧
     (delete_customer dbW 1).2.rentals = dbW.rentals) :=
  ⟨(delete_customer_cases dbW 2).2.1 cW2 (by decide) ⟨rWa, by decide, by decide⟩,
   (delete_customer_cases dbW 1).2.2 cW1 (by decide) (by decide)⟩

/-- C5: round trip of create and get.  Creating a customer succeeds, the
response reflects the supplied fields with `create_date` and `last_update`
populated (both stamped with the current time, hence non-null), and fetching
by the returned id yields the identical record; moreover `email` defaults to
null and `active` to true when omitted from the request. -/
theorem create_then_get_roundtrip (db : Db) (now : Nat) (cus : CustomerCreate)
    (hfresh : ∀ c ∈ db.customers, c.customer_id < db.nextCustomerId) :
    ∃ resp db2, create_customer db now cus = (.ok resp, db2) ∧
      get_customer db2 resp.customer_id = .ok resp ∧
      resp.customer_id = db.nextCustomerId ∧
      resp.store_id = cus.store_id ∧ resp.first_name = cus.first_name ∧
      resp.last_name = cus.last_name ∧ resp.email = cus.email ∧
      resp.address_id = cus.address_id ∧ resp.active = cus.active ∧
      resp.create_date = now ∧ resp.last_update = now ∧
      (∀ (s : Nat) (f l : String) (a : Nat),
        ({ store_id := s, first_name := f, last_name := l,
           address_id := a } : CustomerCreate).email = none ∧
        ({ store_id := s, first_name := f, last_name := l,
           address_id := a } : CustomerCreate).active = true) := by
  have hpre : ∀ x ∈ db.customers,
      (fun c : Customer => c.customer_id == db.nextCustomerId) x = false := by
    intro x hx
    have := hfresh x hx
    simp only [beq_eq_false_iff_ne, ne_eq]
    omega
  have hfind : (db.customers ++ [newCustomerRow db now cus]).find?
      (fun c => c.customer_id == db.nextCustomerId) =
      some (newCustomerRow db now cus) := by
    rw [find?_append_notfound _ _ _ hpre]
    simp [newCustomerRow]
  refine ⟨newCustomerRow db now cus,
    { db with customers := db.customers ++ [newCustomerRow db now cus],
              nextCustomerId := db.nextCustomerId + 1 },
    ?_, ?_, rfl, rfl, rfl, rfl, rfl, rfl, rfl, rfl, rfl,
    fun s f l a => ⟨rfl, rfl⟩⟩
  · simp only [create_customer, Db.findCustomer, hfind,
      create_customer_after_insert]
  · have hcid : (newCustomerRow db now cus).customer_id = db.nextCustomerId :=
      rfl
    simp only [get_customer, Db.findCustomer, hcid, hfind]

/-- Witness for C5: creating a customer in the fixture database at time 77
and fetching it back by the returned id (6) yields the identical record. -/
theorem create_then_get_roundtrip_witness :
    ∃ resp db2, create_customer dbW 77
        { store_id := 1, first_name := "Fede", last_name := "Mora",
          address_id := 9 } = (.ok resp, db2) ∧
      get_customer db2 resp.customer_id = .ok resp ∧
      resp.customer_id = dbW.nextCustomerId ∧
      resp.store_id = 1 ∧ resp.first_name = "Fede" ∧
      resp.last_name = "Mora" ∧ resp.email = none ∧
      resp.address_id = 9 ∧ resp.active = true ∧
      resp.create_date = 77 ∧ resp.last_update = 77 ∧
      (∀ (s : Nat) (f l : String) (a : Nat),
        ({ store_id := s, first_name := f, last_name := l,
           address_id := a } : CustomerCreate).email = none ∧
        ({ store_id := s, first_name := f, last_name := l,
           address_id := a } : CustomerCreate).active = true) :=
  create_then_get_roundtrip dbW 77
    { store_id := 1, first_name := "Fede", last_name := "Mora",
      address_id := 9 } (by decide)

/-- C6: listing customers returns rows ordered by ascending `customer_id`,
skipping the first `skip` rows and returning at most `limit` rows; the query
parameters are constrained to `skip ≥ 0` (default 0) and `1 ≤ limit ≤ 500`
(default 100).  In particular, on the fixture store of 5 customers,
`limit=2&skip=0` returns exactly the first two customers in ascending id
order. -/
theorem get_customers_pagination (db : Db) (skip limit : Nat) :
    customersPageParams.skip_min = 0 ∧
    customersPageParams.skip_default = 0 ∧
    customersPageParams.limit_min = 1 ∧
    customersPageParams.limit_max = 500 ∧
    customersPageParams.limit_default = 100 ∧
    (∃ sorted : List Customer, sorted.Perm db.customers ∧
      sorted.Pairwise (fun a b => a.customer_id ≤ b.customer_id) ∧
      get_customers db skip limit = (sorted.drop skip).take limit) ∧
    (get_customers db skip limit).length =
      min limit (db.customers.length - skip) ∧
    (get_customers db skip limit).Pairwise
      (fun a b => a.customer_id ≤ b.customer_id) ∧
    get_customers dbW 0 2 = [cW1, cW2] := by
  have hpair : (sortBy customerAsc db.customers).Pairwise
      (fun a b => a.customer_id ≤ b.customer_id) :=
    (sortBy_pairwise customerAsc customerAsc_total customerAsc_trans
      db.customers).imp (fun h => of_decide_eq_true h)
  refine ⟨rfl, rfl, rfl, rfl, rfl,
    ⟨sortBy customerAsc db.customers,
      sortBy_perm customerAsc db.customers, hpair, rfl⟩, ?_, ?_, ?_⟩
  · simp [get_customers, List.length_take, List.length_drop,
      (sortBy_perm customerAsc db.customers).length_eq]
  · exact hpair.sublist
      ((List.take_sublist _ _).trans (List.drop_sublist _ _))
  · rfl

/-- C7: both rental listing endpoints declare the same pagination parameters
and bounds as the customer list and return rentals ordered by `rental_date`
descending; the customer-scoped variant yields 404 when the customer id does
not exist, before any rental query (its 404 does not depend on the rental
table at all), and on success returns only that customer's rentals. -/
theorem rentals_listing_pagination (db : Db) (cid skip limit : Nat) :
    rentalsPageParams = customersPageParams ∧
    customerRentalsPageParams = customersPageParams ∧
    (∃ sorted : List Rental, sorted.Perm db.rentals ∧
      sorted.Pairwise (fun a b => b.rental_date ≤ a.rental_date) ∧
      get_rentals db skip limit = (sorted.drop skip).take limit) ∧
    (get_rentals db skip limit).Pairwise
      (fun a b => b.rental_date ≤ a.rental_date) ∧
    (get_rentals db skip limit).length =
      min limit (db.rentals.length - skip) ∧
    (db.findCustomer cid = none → ∀ rl : List Rental,
      get_customer_rentals { db with rentals := rl } cid skip limit =
        .error { status_code := 404, detail := "Customer not found" }) ∧
    (∀ c, db.findCustomer cid = some c →
      ∃ res, get_customer_rentals db cid skip limit = .ok res ∧
        res.Pairwise (fun a b => b.rental_date ≤ a.rental_date) ∧
        res.length ≤ limit ∧
        (∀ r ∈ res, r.customer_id = cid)) := by
  have hpairg : (sortBy rentalDesc db.rentals).Pairwise
      (fun a b => b.rental_date ≤ a.rental_date) :=
    (sortBy_pairwise rentalDesc rentalDesc_total rentalDesc_trans
      db.rentals).imp (fun h => of_decide_eq_true h)
  refine ⟨rfl, rfl,
    ⟨sortBy rentalDesc db.rentals, sortBy_perm rentalDesc db.rentals,
      hpairg, rfl⟩,
    hpairg.sublist ((List.take_sublist _ _).trans (List.drop_sublist _ _)),
    ?_, ?_, ?_⟩
  · simp [get_rentals, List.length_take, List.length_drop,
      (sortBy_perm rentalDesc db.rentals).length_eq]
  · intro h rl
    have h2 : db.customers.find? (fun c => c.customer_id == cid) = none := h
    simp [get_customer_rentals, Db.findCustomer, h2]
  · intro c hc
    have hc2 : db.customers.find? (fun x => x.customer_id == cid) = some c := hc
    have hpairf : (sortBy rentalDesc
        (db.rentals.filter fun r => r.customer_id == cid)).Pairwise
        (fun a b => b.rental_date ≤ a.rental_date) :=
      (sortBy_pairwise rentalDesc rentalDesc_total rentalDesc_trans _).imp
        (fun h => of_decide_eq_true h)
    refine ⟨((sortBy rentalDesc
        (db.rentals.filter fun r => r.customer_id == cid)).drop skip).take limit,
      by simp [get_customer_rentals, Db.findCustomer, hc2], ?_, ?_, ?_⟩
    · exact hpairf.sublist
        ((List.take_sublist _ _).trans (List.drop_sublist _ _))
    · exact le_trans (List.length_take_le _ _) (le_refl _)
    · intro r hr
      have hr2 : r ∈ sortBy rentalDesc
          (db.rentals.filter fun x => x.customer_id == cid) :=
        ((List.take_sublist _ _).trans (List.drop_sublist _ _)).mem hr
      have hr3 : r ∈ db.rentals.filter fun x => x.customer_id == cid :=
        (sortBy_perm _ _).mem_iff.1 hr2
      have := (List.mem_filter.1 hr3).2
      simpa using this

/-- Witness for C7: in the fixture database, listing rentals of the absent
customer 99 yields 404 whatever the rental table holds, and listing rentals
of customer 2 succeeds with only that customer's rentals, in descending
`rental_date` order. -/
theorem rentals_listing_pagination_witness :
    (∀ rl : List Rental,
      get_customer_rentals { dbW with rentals := rl } 99 0 100 =
        .error { status_code := 404, detail := "Customer not found" }) ∧
    (∃ res, get_customer_rentals dbW 2 0 100 = .ok res ∧
      res.Pairwise (fun a b => b.rental_date ≤ a.rental_date) ∧
      res.length ≤ 100 ∧ (∀ r ∈ res, r.customer_id = 2)) :=
  ⟨(rentals_listing_pagination dbW 99 0 100).2.2.2.2.2.1 (by decide),
   (rentals_listing_pagination dbW 2 0 100).2.2.2.2.2.2 cW2 (by decide)⟩

/-- C8: login with a non-existent user or a wrong password yields 401 with a
`WWW-Authenticate: Bearer` challenge header; login with correct credentials
yields a bearer token whose claims carry the supplied username as subject
and an expiry exactly the configured number of minutes after issuance. -/
theorem login_token_claims (hash : String → String) (expireMinutes : Nat)
    (users : List AuthUser) (now : Nat) (username password : String) :
    (users.find? (fun u => u.username == username) = none →
      login hash expireMinutes users now username password =
        .error { status_code := 401, detail := "Credenciales inválidas",
                 headers := [("WWW-Authenticate", "Bearer")] }) ∧
    (∀ u, users.find? (fun x => x.username == username) = some u →
      hash password ≠ u.hashed_password →
      login hash expireMinutes users now username password =
        .error { status_code := 401, detail := "Credenciales inválidas",
                 headers := [("WWW-Authenticate", "Bearer")] }) ∧
    (∀ u, users.find? (fun x => x.username == username) = some u →
      hash password = u.hashed_password →
      login hash expireMinutes users now username password =
        .ok { access_token := { sub := username, exp := now + expireMinutes },
              token_type := "bearer" }) := by
  refine ⟨?_, ?_, ?_⟩
  · intro h
    simp [login, authenticate_user, h]
  · intro u hu hne
    simp [login, authenticate_user, hu, hne]
  · intro u hu heq
    simp [login, authenticate_user, hu, heq, create_access_token]

/-- Witness for C8: with the fixture user table, a wrong password and an
unknown username both yield the 401 challenge; the correct credentials yield
a bearer token with subject "alice" expiring 30 minutes after issuance at
time 1000. -/
theorem login_token_claims_witness :
    login hashW 30 usersW 1000 "bob" "whatever" =
      .error { status_code := 401, detail := "Credenciales inválidas",
               headers := [("WWW-Authenticate", "Bearer")] } ∧
    login hashW 30 usersW 1000 "alice" "wrongpass" =
      .error { status_code := 401, detail := "Credenciales inválidas",
               headers := [("WWW-Authenticate", "Bearer")] } ∧
    login hashW 30 usersW 1000 "alice" "wonderland1" =
      .ok { access_token := { sub := "alice", exp := 1030 },
            token_type := "bearer" } :=
  ⟨(login_token_claims hashW 30 usersW 1000 "bob" "whatever").1 (by decide),
   (login_token_claims hashW 30 usersW 1000 "alice" "wrongpass").2.1
     { username := "alice", email := "alice@example.com",
       hashed_password := hashW "wonderland1" } (by decide) (by decide),
   (login_token_claims hashW 30 usersW 1000 "alice" "wonderland1").2.2
     { username := "alice", email := "alice@example.com",
       hashed_password := hashW "wonderland1" } (by decide) (by decide)⟩

/-- C9: registration persists only the salted one-way hash of the supplied
password — the record written to the store is (username, email,
hash password), so the plaintext is never stored when the hash differs from
it — and a registration whose username or email already exists yields 400
and leaves the user table unchanged (rejected, not overwritten). -/
theorem register_hashes_password (hash : String → String)
    (users : List AuthUser) (u : UserCreate) :
    (user_insert_conflict users u.username u.email = true →
      register hash users u =
        (.error { status_code := 400,
                  detail := "El usuario o el e-mail ya existen en la base de datos" },
         users)) ∧
    (user_insert_conflict users u.username u.email = false →
      register hash users u =
        (.ok "Usuario creado correctamente",
         users ++ [{ username := u.username, email := u.email,
                     hashed_password := hash u.password }])) ∧
    (∀ v ∈ (register hash users u).2, v ∈ users ∨
      v = { username := u.username, email := u.email,
            hashed_password := hash u.password }) ∧
    ((∀ v ∈ users, v.hashed_password ≠ u.password) →
      hash u.password ≠ u.password →
      ∀ v ∈ (register hash users u).2, v.hashed_password ≠ u.password) := by
  refine ⟨?_, ?_, ?_, ?_⟩
  · intro h
    simp [register, h]
  · intro h
    simp [register, h]
  · intro v hv
    by_cases h : user_insert_conflict users u.username u.email = true
    · simp only [register, if_pos h] at hv
      exact Or.inl hv
    · have h2 : user_insert_conflict users u.username u.email = false := by
        cases hcase : user_insert_conflict users u.username u.email
        · rfl
        · exact absurd hcase h
      simp only [register, h2, Bool.false_eq_true, if_false,
        List.mem_append, List.mem_singleton] at hv
      exact hv
  · intro hold hhash v hv
    by_cases h : user_insert_conflict users u.username u.email = true
    · simp only [register, if_pos h] at hv
      exact hold v hv
    · have h2 : user_insert_conflict users u.username u.email = false := by
        cases hcase : user_insert_conflict users u.username u.email
        · rfl
        · exact absurd hcase h
      simp only [register, h2, Bool.false_eq_true, if_false,
        List.mem_append, List.mem_singleton] at hv
      rcases hv with hv | hv
      · exact hold v hv
      · rw [hv]
        exact hhash

/-- Witness for C9: registering a fresh user stores the hash of the password
and never the plaintext; re-registering the taken username "alice" yields
400 and the table is unchanged. -/
theorem register_hashes_password_witness :
    register hashW usersW
        { username := "alice", email := "other@example.com",
          password := "secretpw1" } =
      (.error { status_code := 400,
                detail := "El usuario o el e-mail ya existen en la base de datos" },
       usersW) ∧
    register hashW usersW
        { username := "carol", email := "carol@example.com",
          password := "secretpw1" } =
      (.ok "Usuario creado correctamente",
       usersW ++ [{ username := "carol", email := "carol@example.com",
                    hashed_password := hashW "secretpw1" }]) ∧
    (∀ v ∈ (register hashW usersW
        { username := "carol", email := "carol@example.com",
          password := "secretpw1" }).2, v.hashed_password ≠ "secretpw1") :=
  ⟨(register_hashes_password hashW usersW
      { username := "alice", email := "other@example.com",
        password := "secretpw1" }).1 (by decide),
   (register_hashes_password hashW usersW
      { username := "carol", email := "carol@example.com",
        password := "secretpw1" }).2.1 (by decide),
   (register_hashes_password hashW usersW
      { username := "carol", email := "carol@example.com",
        password := "secretpw1" }).2.2.2 (by decide) (by decide)⟩

/-- C10: `create_rental` dereferences the row re-fetched after its INSERT
without checking it for absence: on an absent row it crashes (modelled by
`none`) instead of producing the defensive 500 "Failed to retrieve created
customer" that `create_customer` produces in the analogous situation; it is
total (produces an HTTP response) exactly under the precondition that the
post-insert re-fetch returns a row.  The last conjunct ties the modelled
continuation to the full handler. -/
theorem create_rental_unchecked_refetch :
    create_rental_after_insert none = none ∧
    create_customer_after_insert none =
      .error { status_code := 500,
               detail := "Failed to retrieve created customer" } ∧
    (∀ row : Rental, create_rental_after_insert (some row) =
      some (.ok row)) ∧
    (∀ row : Customer, create_customer_after_insert (some row) = .ok row) ∧
    (∀ (db : Db) (now : Nat) (req : RentalCreate),
      (create_rental db now req).1 =
        create_rental_after_insert
          ((create_rental db now req).2.findRental db.nextRentalId)) :=
  ⟨rfl, rfl, fun _ => rfl, fun _ => rfl, fun _ _ _ => rfl⟩

end SakilaAPI
